import Mathlib

/-!
Shallow embedding of the autobackend.ai backend (src/index.ts, src/config/env.ts).

The service exposes `POST /generate`: it parses a JSON body, validates it
against the zod schema `openApiSchema`, builds a fixed system prompt and a
user prompt embedding the validated specification pretty-printed with
`JSON.stringify(spec, null, 2)`, invokes the external generation capability
(`generateObject`), and assembles either the success envelope (metadata +
files) or one of the error envelopes.

JSON values are modelled by the nested inductive `Json`; JavaScript objects
become association lists in insertion order, `Object.keys` becomes the list
of first components.  The external model call is an oracle parameter of type
`GenOracle`; the handler also returns the list of (system, user) prompt
pairs it handed to the oracle, so that "generation was / was not invoked"
and "which prompts were used" are expressible.  Clock reads
(`new Date().toISOString()`) are modelled by a `Timestamp` argument rendered
with `toISOString`.
-/

/-- A JSON value.  Objects are association lists in insertion order. -/
inductive Json where
  | null
  | bool (b : Bool)
  | num (n : Int)
  | str (s : String)
  | arr (elems : List Json)
  | obj (fields : List (String × Json))

/-- Field lookup on a JSON object (first occurrence), `none` on non-objects. -/
def Json.get? (j : Json) (k : String) : Option Json :=
  match j with
  | .obj kvs => kvs.lookup k
  | _ => none

/-- Iterated field lookup along a path of keys. -/
def Json.getPath : Json → List String → Option Json
  | j, [] => some j
  | j, k :: ks =>
    match j.get? k with
    | some v => v.getPath ks
    | none => none

/-- The regex `^3\.\d+\.\d+$` from `openApiSchema.openapi` in src/index.ts:
a literal `3`, a dot, one or more digits, a dot, one or more digits. -/
def matchesOpenApiVersion (s : String) : Bool :=
  match s.data with
  | '3' :: '.' :: rest =>
    let p1 := rest.span (fun c => c.isDigit)
    match p1.1, p1.2 with
    | _ :: _, '.' :: rest2 =>
      let p2 := rest2.span (fun c => c.isDigit)
      !p2.1.isEmpty && p2.2.isEmpty
    | _, _ => false
  | _ => false

/-- One zod validation issue: the path of the offending field and a message. -/
structure ZodIssue where
  path : List String
  message : String
deriving DecidableEq

/-- The issue list of a check result (empty for a success). -/
def errList {α : Type} : Except (List ZodIssue) α → List ZodIssue
  | .error l => l
  | .ok _ => []

/-- zod check of the `openapi` field: a string matching `^3\.\d+\.\d+$`. -/
def checkOpenapi (doc : Json) : Except (List ZodIssue) Json :=
  match doc.get? "openapi" with
  | none => .error [⟨["openapi"], "Required"⟩]
  | some (.str s) =>
    if matchesOpenApiVersion s then .ok (.str s)
    else .error [⟨["openapi"], "Must be OpenAPI 3.x.x"⟩]
  | some _ => .error [⟨["openapi"], "Expected string"⟩]

/-- zod check of one required string field below `base`. -/
def checkStringField (base : List String) (k : String) (j : Option Json) :
    Except (List ZodIssue) Json :=
  match j with
  | none => .error [⟨base ++ [k], "Required"⟩]
  | some (.str s) => .ok (.str s)
  | some _ => .error [⟨base ++ [k], "Expected string"⟩]

/-- zod check of `info`: an object with string `title` and `version`; unknown
keys are stripped (zod object default mode), issues of both fields collected. -/
def checkInfo (doc : Json) : Except (List ZodIssue) Json :=
  match doc.get? "info" with
  | none => .error [⟨["info"], "Required"⟩]
  | some (.obj kvs) =>
    match checkStringField ["info"] "title" (kvs.lookup "title"),
          checkStringField ["info"] "version" (kvs.lookup "version") with
    | .ok t, .ok v => .ok (.obj [("title", t), ("version", v)])
    | r1, r2 => .error (errList r1 ++ errList r2)
  | some _ => .error [⟨["info"], "Expected object"⟩]

/-- zod check of `paths`: `z.record(z.any())` accepts any object, keeping all
entries unchanged; anything that is not an object is rejected. -/
def checkPaths (doc : Json) : Except (List ZodIssue) Json :=
  match doc.get? "paths" with
  | none => .error [⟨["paths"], "Required"⟩]
  | some (.obj kvs) => .ok (.obj kvs)
  | some _ => .error [⟨["paths"], "Expected record"⟩]

/-- zod check of the optional `components` object: absent is fine (and then
omitted from the output); if present it must be an object, whose optional
`schemas` must be a record; unknown keys of `components` are stripped. -/
def checkComponents (doc : Json) : Except (List ZodIssue) (List (String × Json)) :=
  match doc.get? "components" with
  | none => .ok []
  | some (.obj kvs) =>
    match kvs.lookup "schemas" with
    | none => .ok [("components", .obj [])]
    | some (.obj s) => .ok [("components", .obj [("schemas", .obj s)])]
    | some _ => .error [⟨["components", "schemas"], "Expected record"⟩]
  | some _ => .error [⟨["components"], "Expected object"⟩]

/-- `openApiSchema.safeParse` from src/index.ts.  A non-object input fails
with a root issue.  On an object, the four field checks run and all issues
are collected (zod does not stop at the first failing field); on success the
validated value is rebuilt from the recognized fields in schema order, with
unknown keys stripped — zod object schemas default to strip mode. -/
def openApiSafeParse (doc : Json) : Except (List ZodIssue) Json :=
  match doc with
  | .obj _ =>
    match checkOpenapi doc, checkInfo doc, checkPaths doc, checkComponents doc with
    | .ok a, .ok b, .ok c, .ok d =>
      .ok (.obj ([("openapi", a), ("info", b), ("paths", c)] ++ d))
    | r1, r2, r3, r4 =>
      .error (errList r1 ++ errList r2 ++ errList r3 ++ errList r4)
  | _ => .error [⟨[], "Expected object"⟩]

/-- First path components occurring in an issue list, deduplicated,
in first-occurrence order — the sub-keys of `ZodError.format()`. -/
def issueHeads (issues : List ZodIssue) : List String :=
  (issues.filterMap (fun i => i.path.head?)).dedup

/-- `ZodError.format()`: a nested object carrying `_errors` message arrays,
with one sub-object per offending field.  The schema in src/index.ts only
produces paths of length at most two, so recursion depth 2 is exact. -/
def formatLevel : Nat → List ZodIssue → Json
  | fuel, issues =>
    let rootMsgs : List Json :=
      (issues.filter (fun i => i.path.isEmpty)).map (fun i => .str i.message)
    let children : List (String × Json) :=
      match fuel with
      | 0 => []
      | fuel' + 1 =>
        (issueHeads issues).map (fun k =>
          (k, formatLevel fuel'
            (((issues.filter (fun i => i.path.head? == some k)).map
              (fun i => ⟨i.path.tail, i.message⟩)))))
    .obj (("_errors", .arr rootMsgs) :: children)

/-- `validation.error.format()` as embedded in the 400 response. -/
def formatIssues (issues : List ZodIssue) : Json := formatLevel 2 issues

/-- Hex digit character, lowercase, as produced by `JSON.stringify` escapes. -/
def hexDigitChar (n : Nat) : Char :=
  if n < 10 then Char.ofNat (48 + n) else Char.ofNat (87 + n)

/-- `JSON.stringify` escaping of one string character. -/
def escapeChar (c : Char) : String :=
  if c = '"' then "\\\""
  else if c = '\\' then "\\\\"
  else if c = '\x08' then "\\b"
  else if c = '\t' then "\\t"
  else if c = '\n' then "\\n"
  else if c = '\x0c' then "\\f"
  else if c = '\r' then "\\r"
  else if c.toNat < 32 then
    "\\u00" ++ String.mk [hexDigitChar (c.toNat / 16), hexDigitChar (c.toNat % 16)]
  else String.mk [c]

/-- A JSON string literal: quoted and escaped. -/
def quoteStr (s : String) : String :=
  "\"" ++ String.join (s.data.map escapeChar) ++ "\""

/-- The decimal digit character of `n % 10`. -/
def digitChar (n : Nat) : Char := Char.ofNat (48 + n % 10)

/-- Decimal digits of `n`, most significant first; `fuel ≥ n + 1` is always
enough, so `natDigits (n + 1) n` renders every natural exactly. -/
def natDigits : Nat → Nat → List Char
  | 0, _ => []
  | fuel + 1, n =>
    if n < 10 then [digitChar n]
    else natDigits fuel (n / 10) ++ [digitChar n]

/-- Decimal rendering of an integer, as `JSON.stringify` renders it. -/
def intRender (n : Int) : String :=
  (if n < 0 then "-" else "") ++ String.mk (natDigits (n.natAbs + 1) n.natAbs)

/-- `d` spaces, the indentation in front of a nested line. -/
def pad (d : Nat) : String := String.mk (List.replicate d ' ')

mutual

/-- `JSON.stringify(j, null, 2)` at indentation width `d` (two spaces per
nesting level): scalars inline; non-empty arrays and objects one entry per
line, indented two further spaces, closing bracket back at width `d`. -/
def renderJ : Json → Nat → String
  | .null, _ => "null"
  | .bool true, _ => "true"
  | .bool false, _ => "false"
  | .num n, _ => intRender n
  | .str s, _ => quoteStr s
  | .arr [], _ => "[]"
  | .arr (x :: xs), d => "[\n" ++ renderElems (x :: xs) (d + 2) ++ "\n" ++ pad d ++ "]"
  | .obj [], _ => "\x7b\x7d"
  | .obj (kv :: kvs), d => "\x7b\n" ++ renderFields (kv :: kvs) (d + 2) ++ "\n" ++ pad d ++ "\x7d"

/-- Array elements, each on its own indented line, comma-separated. -/
def renderElems : List Json → Nat → String
  | [], _ => ""
  | [x], d => pad d ++ renderJ x d
  | x :: y :: xs, d => pad d ++ renderJ x d ++ ",\n" ++ renderElems (y :: xs) d

/-- Object members, each `"key": value` on its own indented line. -/
def renderFields : List (String × Json) → Nat → String
  | [], _ => ""
  | [(k, v)], d => pad d ++ quoteStr k ++ ": " ++ renderJ v d
  | (k, v) :: kv :: kvs, d =>
    pad d ++ quoteStr k ++ ": " ++ renderJ v d ++ ",\n" ++ renderFields (kv :: kvs) d

end

/-- `JSON.stringify(j, null, 2)`. -/
def prettyPrint (j : Json) : String := renderJ j 0

/-- The fixed system prompt constant of src/index.ts (lines 72-107). -/
def systemPrompt : String := "You are an expert full-stack developer specializing in creating robust, production-ready backend services with Hono.js and TypeScript.\n\n**TASK:** Generate a complete Hono.js project from the provided OpenAPI 3.0 specification.\n\n**OUTPUT FORMAT:** Return a JSON object where:\n- Keys are file paths (e.g., \"src/routes/users.ts\", \"src/models/User.ts\")\n- Values are the complete file contents as strings\n\n**PROJECT STRUCTURE:**\n1. **src/index.ts**: Main entry point with Hono app initialization\n2. **src/routes/*.ts**: Route handlers organized by resource\n3. **src/models/*.ts**: TypeScript interfaces/types from OpenAPI schemas\n4. **src/middleware/*.ts**: Custom middleware if needed\n5. **src/utils/*.ts**: Utility functions\n6. **package.json**: Complete dependencies\n7. **tsconfig.json**: TypeScript configuration\n8. **README.md**: Setup and usage instructions\n\n**CODE REQUIREMENTS:**\n- Use TypeScript with proper typing\n- Implement proper error handling\n- Add input validation using Zod\n- Include proper HTTP status codes\n- Add JSDoc comments for functions\n- Use consistent code formatting\n- Include example request/response data in comments\n\n**DEPENDENCIES TO INCLUDE:**\n- hono (latest)\n- @hono/node-server\n- zod (for validation)\n- @types/node\n- typescript\n- tsx (for development)\n\nGenerate production-ready, well-documented code that follows best practices."

/-- The fixed leading text of the user prompt (src/index.ts line 114). -/
def promptHeader : String :=
  "Generate a complete Hono.js project for this OpenAPI specification:\n\n"

/-- The user prompt: header plus the validated spec pretty-printed with
`JSON.stringify(openapiSpec, null, 2)`. -/
def buildUserPrompt (spec : Json) : String := promptHeader ++ prettyPrint spec

/-- A wall-clock instant, the components `Date.prototype.toISOString` prints. -/
structure Timestamp where
  year : Nat
  month : Nat
  day : Nat
  hour : Nat
  minute : Nat
  second : Nat
  milli : Nat

/-- Two-digit zero-padded rendering (exact for values below 100). -/
def pad2 (n : Nat) : String := String.mk [digitChar (n / 10), digitChar n]

/-- Three-digit zero-padded rendering (exact for values below 1000). -/
def pad3 (n : Nat) : String :=
  String.mk [digitChar (n / 100), digitChar (n / 10), digitChar n]

/-- Four-digit zero-padded rendering (exact for values below 10000). -/
def pad4 (n : Nat) : String :=
  String.mk [digitChar (n / 1000), digitChar (n / 100), digitChar (n / 10), digitChar n]

/-- `new Date(...).toISOString()`: `YYYY-MM-DDTHH:MM:SS.mmmZ`. -/
def toISOString (t : Timestamp) : String :=
  pad4 t.year ++ "-" ++ pad2 t.month ++ "-" ++ pad2 t.day ++ "T" ++
  pad2 t.hour ++ ":" ++ pad2 t.minute ++ ":" ++ pad2 t.second ++ "." ++
  pad3 t.milli ++ "Z"

/-- Whether a string has the shape of an ISO 8601 UTC date-time,
`YYYY-MM-DDTHH:MM:SS.mmmZ` — the sense in which a response `timestamp`
is parseable as a date-time. -/
def isDateTimeString (s : String) : Bool :=
  match s.data with
  | [y1, y2, y3, y4, sep1, m1, m2, sep2, d1, d2, sepT, h1, h2, c1, n1, n2, c2,
     s1, s2, dot, f1, f2, f3, z] =>
    List.all [y1, y2, y3, y4, m1, m2, d1, d2, h1, h2, n1, n2, s1, s2, f1, f2, f3]
      Char.isDigit
    && sep1 == '-' && sep2 == '-' && sepT == 'T' && c1 == ':' && c2 == ':'
    && dot == '.' && z == 'Z'
  | _ => false

/-- An HTTP response value: status code and JSON body. -/
structure HttpResponse where
  status : Nat
  body : Json

/-- What the awaited `generateObject` call can throw: a JavaScript `Error`
(with a message) or any other thrown value. -/
inductive GenFailure where
  | err (message : String)
  | nonError

/-- The external generation capability: given the system prompt and the user
prompt, either a schema-conforming mapping from file path to file content
(`z.record(z.string(), z.string())`) or a failure. -/
abbrev GenOracle := String → String → Except GenFailure (List (String × String))

/-- The success envelope of `POST /generate` (src/index.ts lines 119-131):
`success`, metadata built from the validated spec, the clock and
`Object.keys(generatedFiles)`, and the files mapping itself. -/
def successResponse (spec : Json) (files : List (String × String)) (now : Timestamp) :
    HttpResponse :=
  ⟨200, .obj [
    ("success", .bool true),
    ("metadata", .obj [
      ("apiTitle", (spec.getPath ["info", "title"]).getD .null),
      ("apiVersion", (spec.getPath ["info", "version"]).getD .null),
      ("generatedAt", .str (toISOString now)),
      ("fileCount", .num (files.length : Int)),
      ("files", .arr (files.map (fun kv => .str kv.1)))]),
    ("files", .obj (files.map (fun kv => (kv.1, .str kv.2))))]⟩

/-- The 400 envelope for an invalid specification (src/index.ts lines 62-67). -/
def validationErrorResponse (issues : List ZodIssue) : HttpResponse :=
  ⟨400, .obj [
    ("error", .str "Invalid OpenAPI specification"),
    ("details", formatIssues issues)]⟩

/-- The 500 envelope of the catch block (src/index.ts lines 133-149):
an `Error` carries its message; any other thrown value yields the generic
envelope without a message. -/
def genErrorResponse (e : GenFailure) (now : Timestamp) : HttpResponse :=
  match e with
  | .err msg =>
    ⟨500, .obj [
      ("error", .str "Code generation failed"),
      ("message", .str msg),
      ("timestamp", .str (toISOString now))]⟩
  | .nonError =>
    ⟨500, .obj [
      ("error", .str "Unknown error occurred during code generation"),
      ("timestamp", .str (toISOString now))]⟩

/-- The `POST /generate` handler (src/index.ts lines 56-150) on an already
parsed JSON body: validate, build the prompts, invoke the generation oracle,
assemble the response.  Also returns the list of (system, user) prompt pairs
handed to the oracle, so invocation (and non-invocation) is observable. -/
def generatePost (body : Json) (gen : GenOracle) (now : Timestamp) :
    HttpResponse × List (String × String) :=
  match openApiSafeParse body with
  | .error issues => (validationErrorResponse issues, [])
  | .ok spec =>
    let user := buildUserPrompt spec
    match gen systemPrompt user with
    | .ok files => (successResponse spec files now, [(systemPrompt, user)])
    | .error e => (genErrorResponse e now, [(systemPrompt, user)])

/-- The process environment variables the service reads (src/config/env.ts). -/
structure ProcessEnv where
  PORT : Option String
  GOOGLE_API_KEY : Option String
  NODE_ENV : Option String

/-- The loaded `env` object of src/config/env.ts.  `process.env.X || dflt`
falls back on the default when the variable is absent or the empty string
(JavaScript falsiness on string-or-undefined). -/
structure EnvConfig where
  PORT : String
  GOOGLE_API_KEY : Option String
  NODE_ENV : String

/-- JavaScript `v || dflt` for a possibly-undefined string. -/
def jsOrDefault (v : Option String) (dflt : String) : String :=
  match v with
  | none => dflt
  | some s => if s.isEmpty then dflt else s

/-- The `env` constant of src/config/env.ts. -/
def loadEnv (p : ProcessEnv) : EnvConfig :=
  ⟨jsOrDefault p.PORT "3000", p.GOOGLE_API_KEY, jsOrDefault p.NODE_ENV "development"⟩

/-- JavaScript falsiness of `env.GOOGLE_API_KEY` (string or undefined):
`!x` is true exactly when the variable is absent or the empty string. -/
def isFalsyKey (v : Option String) : Bool :=
  match v with
  | none => true
  | some s => s.isEmpty

/-- The configuration a started server runs with. -/
structure ServerInit where
  apiKey : String
  port : String

/-- Module initialization of src/index.ts (lines 11-16 and 294-303): load the
environment, throw before any serving if `GOOGLE_API_KEY` is falsy, otherwise
start serving with the loaded configuration. -/
def initServer (p : ProcessEnv) : Except String ServerInit :=
  let env := loadEnv p
  if isFalsyKey env.GOOGLE_API_KEY then
    .error "GOOGLE_API_KEY is not set in the environment variables"
  else
    .ok ⟨(env.GOOGLE_API_KEY).getD "", env.PORT⟩

/-- A minimal well-formed document: `openapi: "3.0.0"`, the given title,
version and paths entries, no `components`. -/
def mkMinimalDoc (t v : String) (ps : List (String × Json)) : Json :=
  .obj [("openapi", .str "3.0.0"),
        ("info", .obj [("title", .str t), ("version", .str v)]),
        ("paths", .obj ps)]

/-- The `openapi` field of a document is absent, is not a string, or is a
string not matching `^3\.\d+\.\d+$`. -/
def openapiFieldBad (doc : Json) : Bool :=
  match doc.get? "openapi" with
  | some (.str s) => !matchesOpenApiVersion s
  | some _ => true
  | none => true

/-- A well-formed minimal request body (spec scenario B). -/
def sampleBody : Json := mkMinimalDoc "Blog" "1.0.0" []

/-- The generated project of spec scenario B. -/
def okFiles : List (String × String) :=
  [("package.json", "\x7b\x7d"), ("src/index.ts", "// entry")]

/-- A generation oracle that always returns the scenario-B project. -/
def okOracle : GenOracle := fun _ _ => .ok okFiles

/-- A generation oracle that always raises an authentication `Error`. -/
def failOracle : GenOracle := fun _ _ => .error (.err "Unauthorized")

/-- A fixed clock instant for concrete runs. -/
def t0 : Timestamp := ⟨2026, 10, 12, 3, 4, 5, 6⟩

/-- An accepted document carrying an unrecognized `info.description` key. -/
def C4doc : Json :=
  .obj [("openapi", .str "3.0.0"),
        ("info", .obj [("title", .str "X"), ("version", .str "1"),
                       ("description", .str "d")]),
        ("paths", .obj [])]

/-- What `openApiSchema.safeParse` returns for `C4doc`: the unrecognized
`info.description` is stripped. -/
def C4stripped : Json :=
  .obj [("openapi", .str "3.0.0"),
        ("info", .obj [("title", .str "X"), ("version", .str "1")]),
        ("paths", .obj [])]

/-- Spec scenario A: `openapi: "2.0"` with otherwise well-formed fields. -/
def invalidDoc : Json :=
  .obj [("openapi", .str "2.0"),
        ("info", .obj [("title", .str "X"), ("version", .str "1")]),
        ("paths", .obj [])]

/-- The `openapi: "4.0.0"` variant of the invalid document. -/
def invalidDoc400 : Json :=
  .obj [("openapi", .str "4.0.0"),
        ("info", .obj [("title", .str "X"), ("version", .str "1")]),
        ("paths", .obj [])]

/-- `digitChar` always yields one of the characters `0`-`9`. -/
theorem digitChar_isDigit (n : Nat) : (digitChar n).isDigit = true := by
  have h : n % 10 < 10 := Nat.mod_lt _ (by norm_num)
  unfold digitChar
  set k := n % 10 with hk
  interval_cases k <;> rfl

/-- Every rendered clock instant has the ISO 8601 date-time shape. -/
theorem toISOString_isDateTime (t : Timestamp) :
    isDateTimeString (toISOString t) = true := by
  have h : (toISOString t).data =
      [digitChar (t.year / 1000), digitChar (t.year / 100), digitChar (t.year / 10),
       digitChar t.year, '-',
       digitChar (t.month / 10), digitChar t.month, '-',
       digitChar (t.day / 10), digitChar t.day, 'T',
       digitChar (t.hour / 10), digitChar t.hour, ':',
       digitChar (t.minute / 10), digitChar t.minute, ':',
       digitChar (t.second / 10), digitChar t.second, '.',
       digitChar (t.milli / 100), digitChar (t.milli / 10), digitChar t.milli,
       'Z'] := rfl
  unfold isDateTimeString
  rw [h]
  simp [digitChar_isDigit]

/-- If the `openapi` check fails on an object, the whole parse fails and the
`openapi` issue is among the collected issues. -/
theorem openApiSafeParse_error_openapi (kvs : List (String × Json)) (m : String)
    (h1 : checkOpenapi (.obj kvs) = .error [⟨["openapi"], m⟩]) :
    ∃ issues, openApiSafeParse (.obj kvs) = .error issues ∧
      (⟨["openapi"], m⟩ : ZodIssue) ∈ issues := by
  refine ⟨(⟨["openapi"], m⟩ : ZodIssue) ::
    (errList (checkInfo (.obj kvs)) ++ errList (checkPaths (.obj kvs)) ++
      errList (checkComponents (.obj kvs))), ?_, by simp⟩
  rcases h2 : checkInfo (.obj kvs) with l2 | b <;>
    rcases h3 : checkPaths (.obj kvs) with l3 | c <;>
      rcases h4 : checkComponents (.obj kvs) with l4 | d <;>
        simp [openApiSafeParse, h1, h2, h3, h4, errList]

/-- Claim C2: for every (object) document whose `openapi` field is absent,
is not a string, or does not match `^3\.\d+\.\d+$`, `openApiSchema.safeParse`
rejects it, and among the resulting issues is one whose path is exactly
`openapi`. -/
theorem C2_openapi_field_rejected (kvs : List (String × Json))
    (hbad : openapiFieldBad (.obj kvs) = true) :
    ∃ issues, openApiSafeParse (.obj kvs) = .error issues ∧
      ∃ i ∈ issues, i.path = ["openapi"] := by
  have hchk : ∃ m, checkOpenapi (.obj kvs) = .error [⟨["openapi"], m⟩] := by
    rcases hgo : (Json.obj kvs).get? "openapi" with _ | j
    · exact ⟨"Required", by simp [checkOpenapi, hgo]⟩
    · rcases j with _ | b | n | s | xs | fs
      · exact ⟨"Expected string", by simp [checkOpenapi, hgo]⟩
      · exact ⟨"Expected string", by simp [checkOpenapi, hgo]⟩
      · exact ⟨"Expected string", by simp [checkOpenapi, hgo]⟩
      · refine ⟨"Must be OpenAPI 3.x.x", ?_⟩
        simp only [openapiFieldBad, hgo, Bool.not_eq_true'] at hbad
        simp [checkOpenapi, hgo, hbad]
      · exact ⟨"Expected string", by simp [checkOpenapi, hgo]⟩
      · exact ⟨"Expected string", by simp [checkOpenapi, hgo]⟩
  obtain ⟨m, hm⟩ := hchk
  obtain ⟨issues, hiss, hmem⟩ := openApiSafeParse_error_openapi kvs m hm
  exact ⟨issues, hiss, ⟨_, hmem, rfl⟩⟩

/-- Witness for C2 at the two concrete version strings the claim names:
`"2.0"` and `"4.0.0"` are both rejected with an `openapi`-path issue. -/
theorem C2_witness :
    (∃ issues, openApiSafeParse invalidDoc = .error issues ∧
      ∃ i ∈ issues, i.path = ["openapi"]) ∧
    (∃ issues, openApiSafeParse invalidDoc400 = .error issues ∧
      ∃ i ∈ issues, i.path = ["openapi"]) :=
  ⟨C2_openapi_field_rejected _ (by decide), C2_openapi_field_rejected _ (by decide)⟩

/-- Claim C3: every document with `openapi: "3.0.0"`, string `info.title`
and `info.version` and a `paths` object — with any entry list, including the
empty one — is accepted (and returned unchanged); no minimum-path-count rule
exists. -/
theorem C3_minimal_doc_accepted (t v : String) (ps : List (String × Json)) :
    openApiSafeParse (mkMinimalDoc t v ps) = .ok (mkMinimalDoc t v ps) := rfl

/-- Claim C9: if no usable credential is present in the process environment —
`GOOGLE_API_KEY` unset, or set to the empty string, which is falsy in the
startup check `if (!env.GOOGLE_API_KEY)` — initialization fails with an
error before any server configuration is produced. -/
theorem C9_refuse_start_without_key (p : ProcessEnv)
    (h : p.GOOGLE_API_KEY = none ∨ p.GOOGLE_API_KEY = some "") :
    initServer p = .error "GOOGLE_API_KEY is not set in the environment variables" := by
  rcases h with h | h <;> simp [initServer, loadEnv, isFalsyKey, h, String.isEmpty]

/-- Witness for C9: the empty environment refuses to start. -/
theorem C9_witness :
    initServer ⟨none, none, none⟩ =
      .error "GOOGLE_API_KEY is not set in the environment variables" :=
  C9_refuse_start_without_key ⟨none, none, none⟩ (Or.inl rfl)

/-- Claim C10: the string checks of `info.title` and `info.version` accept
every string value, and in particular a document whose title and version are
both the empty string passes the whole validator. -/
theorem C10_empty_strings_accepted :
    (∀ (base : List String) (k s : String),
      checkStringField base k (some (.str s)) = .ok (.str s)) ∧
    openApiSafeParse (mkMinimalDoc "" "" []) = .ok (mkMinimalDoc "" "" []) :=
  ⟨fun _ _ _ => rfl, rfl⟩

/-- Claim C1: on every successful generation, `metadata.fileCount` equals the
number of distinct keys of the returned `files` mapping, and `metadata.files`
is exactly its key list, in the order the generator produced. -/
theorem C1_metadata_matches_files (body spec : Json) (gen : GenOracle)
    (now : Timestamp) (files : List (String × String))
    (hval : openApiSafeParse body = .ok spec)
    (hgen : gen systemPrompt (buildUserPrompt spec) = .ok files)
    (hnodup : (files.map Prod.fst).Nodup) :
    ∃ proj : List (String × Json),
      (generatePost body gen now).1.body.get? "files" = some (.obj proj) ∧
      (generatePost body gen now).1.body.getPath ["metadata", "fileCount"]
        = some (.num ((proj.map Prod.fst).dedup.length : Int)) ∧
      (generatePost body gen now).1.body.getPath ["metadata", "files"]
        = some (.arr ((proj.map Prod.fst).map Json.str)) := by
  refine ⟨files.map (fun kv => (kv.1, Json.str kv.2)), ?_, ?_, ?_⟩
  · simp only [generatePost, hval, hgen]
    rfl
  · have hkeys : (files.map (fun kv => (kv.1, Json.str kv.2))).map Prod.fst
        = files.map Prod.fst := by
      simp
    rw [hkeys, hnodup.dedup]
    simp only [generatePost, hval, hgen, List.length_map]
    rfl
  · have hkeys : (files.map (fun kv => (kv.1, Json.str kv.2))).map Prod.fst
        = files.map Prod.fst := by
      simp
    rw [hkeys]
    simp only [generatePost, hval, hgen, List.map_map]
    rfl

/-- Witness for C1: spec scenario B — two generated files, `fileCount = 2`,
`metadata.files` in producer order. -/
theorem C1_witness :
    ∃ proj : List (String × Json),
      (generatePost sampleBody okOracle t0).1.body.get? "files"
        = some (.obj proj) ∧
      (generatePost sampleBody okOracle t0).1.body.getPath
        ["metadata", "fileCount"]
        = some (.num ((proj.map Prod.fst).dedup.length : Int)) ∧
      (generatePost sampleBody okOracle t0).1.body.getPath ["metadata", "files"]
        = some (.arr ((proj.map Prod.fst).map Json.str)) :=
  C1_metadata_matches_files sampleBody sampleBody okOracle t0 okFiles
    rfl rfl (by decide)

/-- Counterexample for C4 as stated: `C4doc` is accepted, but zod strips the
unrecognized `info.description`, so the specification embedded in the user
prompt is the stripped value and its pretty-printing is not byte-identical
to the pretty-printed input document. -/
theorem C4_counterexample :
    openApiSafeParse C4doc = .ok C4stripped ∧
    (generatePost C4doc okOracle t0).2
      = [(systemPrompt, promptHeader ++ prettyPrint C4stripped)] ∧
    prettyPrint C4stripped ≠ prettyPrint C4doc :=
  ⟨rfl, rfl, by decide⟩

/-- Claim C4 as amended: the user prompt embeds the pretty-printed validated
value, so whenever the validated value coincides with the input document —
i.e. the input has no unrecognized keys and its keys are in schema order —
the prompt pair handed to the generator embeds JSON byte-identical to the
pretty-printed input. -/
theorem C4_roundtrip_on_validated (doc : Json) (gen : GenOracle) (now : Timestamp)
    (hfix : openApiSafeParse doc = .ok doc) :
    (generatePost doc gen now).2
      = [(systemPrompt, promptHeader ++ prettyPrint doc)] := by
  simp only [generatePost, hfix]
  cases gen systemPrompt (buildUserPrompt doc) <;> rfl

/-- Witness for the amended C4: a minimal document equal to its validated
value round-trips into the prompt byte-identically. -/
theorem C4_witness :
    (generatePost sampleBody okOracle t0).2
      = [(systemPrompt, promptHeader ++ prettyPrint sampleBody)] :=
  C4_roundtrip_on_validated sampleBody okOracle t0 rfl

/-- Claim C5: whenever the generation step fails — with a JavaScript `Error`
such as an authentication failure, or any other thrown value — the response
is a 500 with an `error` field and a `timestamp` of ISO date-time shape, and
it has no `files` key. -/
theorem C5_generation_failure (body spec : Json) (gen : GenOracle)
    (now : Timestamp) (e : GenFailure)
    (hval : openApiSafeParse body = .ok spec)
    (hgen : gen systemPrompt (buildUserPrompt spec) = .error e) :
    (generatePost body gen now).1.status = 500 ∧
    (∃ m, (generatePost body gen now).1.body.get? "error" = some (.str m)) ∧
    (generatePost body gen now).1.body.get? "timestamp"
      = some (.str (toISOString now)) ∧
    isDateTimeString (toISOString now) = true ∧
    (generatePost body gen now).1.body.get? "files" = none := by
  cases e with
  | err msg =>
    refine ⟨?_, ⟨"Code generation failed", ?_⟩, ?_, toISOString_isDateTime now, ?_⟩ <;>
      (simp only [generatePost, hval, hgen]; rfl)
  | nonError =>
    refine ⟨?_, ⟨"Unknown error occurred during code generation", ?_⟩, ?_,
      toISOString_isDateTime now, ?_⟩ <;>
      (simp only [generatePost, hval, hgen]; rfl)

/-- Witness for C5: spec scenario C — an authentication `Error` yields a 500
envelope with `error`, a parseable `timestamp`, and no `files`. -/
theorem C5_witness :
    (generatePost sampleBody failOracle t0).1.status = 500 ∧
    (∃ m, (generatePost sampleBody failOracle t0).1.body.get? "error"
      = some (.str m)) ∧
    (generatePost sampleBody failOracle t0).1.body.get? "timestamp"
      = some (.str (toISOString t0)) ∧
    isDateTimeString (toISOString t0) = true ∧
    (generatePost sampleBody failOracle t0).1.body.get? "files" = none :=
  C5_generation_failure sampleBody sampleBody failOracle t0 (.err "Unauthorized")
    rfl rfl

/-- Counterexample for C6 as stated: the validation-failure envelope of
`POST /generate` (status 400) contains no `timestamp` field at all. -/
theorem C6_counterexample :
    (generatePost invalidDoc okOracle t0).1.status = 400 ∧
    (generatePost invalidDoc okOracle t0).1.body.get? "timestamp" = none :=
  ⟨rfl, rfl⟩

/-- Claim C6 as amended: every failure envelope of `POST /generate` carries
an error category string; a validation failure (400) additionally carries a
`details` field but no timestamp; a generation failure (500) additionally
carries a `timestamp`. -/
theorem C6_failure_envelope_fields (body : Json) (gen : GenOracle)
    (now : Timestamp)
    (hfail : (generatePost body gen now).1.status ≠ 200) :
    (∃ m, (generatePost body gen now).1.body.get? "error" = some (.str m)) ∧
    ((generatePost body gen now).1.status = 400 →
      (∃ d, (generatePost body gen now).1.body.get? "details" = some d) ∧
      (generatePost body gen now).1.body.get? "timestamp" = none) ∧
    ((generatePost body gen now).1.status = 500 →
      (generatePost body gen now).1.body.get? "timestamp"
        = some (.str (toISOString now))) := by
  rcases hv : openApiSafeParse body with issues | spec
  · refine ⟨⟨"Invalid OpenAPI specification", ?_⟩,
      fun _ => ⟨⟨formatIssues issues, ?_⟩, ?_⟩, fun h500 => ?_⟩
    · simp only [generatePost, hv]; rfl
    · simp only [generatePost, hv]; rfl
    · simp only [generatePost, hv]; rfl
    · simp only [generatePost, hv, validationErrorResponse] at h500
      exact absurd h500 (by decide)
  · rcases hg : gen systemPrompt (buildUserPrompt spec) with e | files
    · cases e with
      | err msg =>
        refine ⟨⟨"Code generation failed", ?_⟩, fun h400 => ?_, fun _ => ?_⟩
        · simp only [generatePost, hv, hg]; rfl
        · simp only [generatePost, hv, hg, genErrorResponse] at h400
          exact absurd h400 (by decide)
        · simp only [generatePost, hv, hg]; rfl
      | nonError =>
        refine ⟨⟨"Unknown error occurred during code generation", ?_⟩,
          fun h400 => ?_, fun _ => ?_⟩
        · simp only [generatePost, hv, hg]; rfl
        · simp only [generatePost, hv, hg, genErrorResponse] at h400
          exact absurd h400 (by decide)
        · simp only [generatePost, hv, hg]; rfl
    · exfalso
      apply hfail
      simp only [generatePost, hv, hg]
      rfl

/-- Witness for the amended C6 at a concrete validation failure. -/
theorem C6_witness :
    (∃ m, (generatePost invalidDoc okOracle t0).1.body.get? "error"
      = some (.str m)) ∧
    ((generatePost invalidDoc okOracle t0).1.status = 400 →
      (∃ d, (generatePost invalidDoc okOracle t0).1.body.get? "details"
        = some d) ∧
      (generatePost invalidDoc okOracle t0).1.body.get? "timestamp" = none) ∧
    ((generatePost invalidDoc okOracle t0).1.status = 500 →
      (generatePost invalidDoc okOracle t0).1.body.get? "timestamp"
        = some (.str (toISOString t0))) :=
  C6_failure_envelope_fields invalidDoc okOracle t0 (by decide)

/-- Claim C7: for every document the validator rejects, the handler returns
the 400 validation-error response and never invokes the generation oracle —
the prompt-pair log is empty and the response does not depend on the oracle. -/
theorem C7_no_generation_on_invalid (body : Json) (gen : GenOracle)
    (now : Timestamp) (issues : List ZodIssue)
    (hval : openApiSafeParse body = .error issues) :
    generatePost body gen now = (validationErrorResponse issues, []) ∧
    (generatePost body gen now).1.status = 400 := by
  constructor
  · simp only [generatePost, hval]
  · simp [generatePost, hval, validationErrorResponse]

/-- Witness for C7: the scenario-A document yields the 400 response with an
empty invocation log under an oracle that would have succeeded. -/
theorem C7_witness :
    generatePost invalidDoc okOracle t0
      = (validationErrorResponse [⟨["openapi"], "Must be OpenAPI 3.x.x"⟩], []) ∧
    (generatePost invalidDoc okOracle t0).1.status = 400 :=
  C7_no_generation_on_invalid invalidDoc okOracle t0
    [⟨["openapi"], "Must be OpenAPI 3.x.x"⟩] rfl

/-- Claim C8: prompt construction is deterministic — any two requests whose
bodies validate to the same specification hand the generation oracle the
same single prompt pair, whose first component is the fixed constant
`systemPrompt` and whose second varies only in the embedded specification. -/
theorem C8_prompt_determinism (b1 b2 spec : Json) (g1 g2 : GenOracle)
    (n1 n2 : Timestamp)
    (h1 : openApiSafeParse b1 = .ok spec) (h2 : openApiSafeParse b2 = .ok spec) :
    (generatePost b1 g1 n1).2 = [(systemPrompt, buildUserPrompt spec)] ∧
    (generatePost b2 g2 n2).2 = [(systemPrompt, buildUserPrompt spec)] := by
  constructor
  · simp only [generatePost, h1]
    cases g1 systemPrompt (buildUserPrompt spec) <;> rfl
  · simp only [generatePost, h2]
    cases g2 systemPrompt (buildUserPrompt spec) <;> rfl

/-- Witness for C8: two runs on the same body under different oracles hand
over the identical prompt pair. -/
theorem C8_witness :
    (generatePost sampleBody okOracle t0).2
      = [(systemPrompt, buildUserPrompt sampleBody)] ∧
    (generatePost sampleBody failOracle t0).2
      = [(systemPrompt, buildUserPrompt sampleBody)] :=
  C8_prompt_determinism sampleBody sampleBody sampleBody okOracle failOracle
    t0 t0 rfl rfl
